import Mathlib

/-!
Verification of the Contextual Memory and Retrieval Engine of the
email-assistant repository (backend `src/be/src`).

The embedding translates the authoritative sources:
  * `src/be/src/services/vectorStore.ts` (first version in the file; its line
    numbers match the claim references) - sessions, pending queue, lazy
    credential-gated vector store, searches, TTL sweep;
  * `src/be/src/services/chatService.ts` and `src/be/src/routes/chat.ts` -
    context assembly and the `contextUsed` flag;
  * `src/unnamed/part_007` (documentService) - document chunking.

Modelling conventions:
  * timestamps (`new Date()`, `getTime()`) are natural numbers, milliseconds
    since the epoch, passed as an explicit `now` parameter (injected clock);
  * `uuidv4()` is a fresh-identifier supply: a `nextId` counter on the state;
  * JS `Map`s are association lists; `Map.get` is `find?` on the key,
    `Map.delete` removes the entry with the key, `Map.set` replaces it
    (entry order differs from JS insertion order, which no lookup observes);
  * the OpenAI embedding provider and the HNSWLib nearest-neighbour search are
    external collaborators; they enter as oracle parameters: `initOk` (does
    `HNSWLib.fromTexts` succeed), `embedOk` (does embedding a given message
    succeed), `searchOutcome` (`none` models a rejected
    `similaritySearchWithScore` promise, `some rs` its resolved value);
  * a rejected promise is `Except.error`; awaited rejections propagate, and
    state mutations performed before the rejection persist, so stateful
    operations return `StoreState × Except EmbedError _`;
  * JS string truthiness of the optional `userApiKey` is `strFalsy`.
-/

set_option linter.unusedVariables false

namespace EmailAssistant

/-- Chat message, vectorStore.ts lines 7-13.  The `role` field is the literal
string `"user"` or `"assistant"`; nothing in the claims depends on the
restriction, so it is modelled as a plain string. -/
structure ChatMessage where
  id : String
  role : String
  content : String
  timestamp : Nat
  userId : String
deriving DecidableEq

/-- Metadata object attached to a langchain `Document`.  JS metadata is a
free-form object; the fields the claims depend on are modelled, each optional
(`none` models an absent field, JS `undefined`). -/
structure DocMetadata where
  id : Option String
  role : Option String
  userId : Option String
  timestamp : Option String
  type : Option String
  fileName : Option String
deriving DecidableEq

/-- Langchain `Document`: page content plus metadata. -/
structure Document where
  pageContent : String
  metadata : DocMetadata
deriving DecidableEq

/-- The sentinel seed document inserted when the store is built,
vectorStore.ts lines 209-214: `HNSWLib.fromTexts` of the dummy text
`email assistant` with metadata carrying only `id: 'init'`. -/
def initDoc : Document :=
  ⟨"email assistant", ⟨some "init", none, none, none, none, none⟩⟩

/-- The HNSWLib vector store, modelled as the list of documents it holds
(append-only; `addDocuments` appends). -/
structure VectorStore where
  docs : List Document
deriving DecidableEq

/-- Conversation session, vectorStore.ts lines 21-27.  Session ids are drawn
from the `nextId` counter. -/
structure Session where
  sessionId : Nat
  userId : String
  messages : List ChatMessage
  lastActivity : Nat
  createdAt : Nat
deriving DecidableEq

/-- Mutable state of the `VectorStoreService` singleton, vectorStore.ts lines
30-38: the lazily built store (`null` before first credentialed build), the
pending message queue, the session map, the userId -> sessionId map, and the
fresh-id supply standing in for `uuidv4`. -/
structure StoreState where
  vectorStore : Option VectorStore
  pendingMessages : List ChatMessage
  sessions : List (Nat × Session)
  pointers : List (String × Nat)
  nextId : Nat
deriving DecidableEq

/-- vectorStore.ts line 41. -/
def MAX_RECENT_MESSAGES : Nat := 15

/-- vectorStore.ts line 42. -/
def MAX_SESSION_AGE_HOURS : Nat := 48

/-- Transient embedding-provider failure (a rejected provider call). -/
inductive EmbedError where
  | providerError
deriving DecidableEq

/-- Decidable equality for `Except`, so that concrete operation results can be
checked by `decide`. -/
instance {ε α : Type} [DecidableEq ε] [DecidableEq α] :
    DecidableEq (Except ε α) := fun a b =>
  match a, b with
  | Except.ok x, Except.ok y =>
      if h : x = y then isTrue (by rw [h])
      else isFalse (by intro hc; cases hc; exact h rfl)
  | Except.error x, Except.error y =>
      if h : x = y then isTrue (by rw [h])
      else isFalse (by intro hc; cases hc; exact h rfl)
  | Except.ok _, Except.error _ => isFalse (by intro hc; cases hc)
  | Except.error _, Except.ok _ => isFalse (by intro hc; cases hc)

/-- State of the service at process start: no store, empty queue, no
sessions. -/
def emptyState : StoreState := ⟨none, [], [], [], 0⟩

/-- JS falsiness of the optional `userApiKey` string: `undefined` and the
empty string are falsy. -/
def strFalsy (k : Option String) : Bool :=
  match k with
  | none => true
  | some s => s == ""

/-- The query validation `!query || query.trim().length === 0` of
vectorStore.ts lines 299 and 435: for a string this holds exactly when every
character is whitespace (JS `trim` drops leading and trailing whitespace, so
the trimmed length is zero iff nothing but whitespace is present). -/
def isBlank (q : String) : Bool :=
  q.data.all (fun c => c.isWhitespace)

/-- `conversationSessions.get(sessionId)`. -/
def lookupSession (ss : List (Nat × Session)) (k : Nat) : Option Session :=
  (ss.find? (fun p => p.1 == k)).map (fun p => p.2)

/-- `userCurrentSessions.get(userId)`. -/
def lookupPointer (ps : List (String × Nat)) (u : String) : Option Nat :=
  (ps.find? (fun p => p.1 == u)).map (fun p => p.2)

/-- `conversationSessions.set(sessionId, session)` (replace or add). -/
def setSession (ss : List (Nat × Session)) (k : Nat) (s : Session) :
    List (Nat × Session) :=
  (k, s) :: ss.filter (fun p => p.1 != k)

/-- `userCurrentSessions.set(userId, sessionId)` (replace or add). -/
def setPointer (ps : List (String × Nat)) (u : String) (v : Nat) :
    List (String × Nat) :=
  (u, v) :: ps.filter (fun p => p.1 != u)

/-- `conversationSessions.delete(sessionId)`. -/
def eraseSession (ss : List (Nat × Session)) (k : Nat) : List (Nat × Session) :=
  ss.filter (fun p => p.1 != k)

/-- `userCurrentSessions.delete(userId)`. -/
def erasePointer (ps : List (String × Nat)) (u : String) : List (String × Nat) :=
  ps.filter (fun p => p.1 != u)

/-- Session creation inside `getCurrentSession`, vectorStore.ts lines 106-118:
a fresh id, empty message list, `lastActivity` and `createdAt` set to now.
Returns the map key, the session, and the updated state. -/
def createSession (st : StoreState) (u : String) (now : Nat) :
    Nat × Session × StoreState :=
  let s : Session := ⟨st.nextId, u, [], now, now⟩
  (st.nextId, s,
    { st with sessions := setSession st.sessions st.nextId s,
              pointers := setPointer st.pointers u st.nextId,
              nextId := st.nextId + 1 })

/-- `getCurrentSession`, vectorStore.ts lines 101-121: follow the user's
current-session pointer; if it is missing or dangling, create a new session.
The returned key is the map key under which the (mutable in JS) session object
lives, so that updates through the returned object write back to that key. -/
def getCurrentSession (st : StoreState) (u : String) (now : Nat) :
    Nat × Session × StoreState :=
  match lookupPointer st.pointers u with
  | some sid =>
      match lookupSession st.sessions sid with
      | some sess => (sid, sess, st)
      | none => createSession st u now
  | none => createSession st u now

/-- The session the user's pointer currently designates, if any. -/
def currentSessionOf (st : StoreState) (u : String) : Option Session :=
  (lookupPointer st.pointers u).bind (lookupSession st.sessions)

/-- The session-list part of `addChatMessage` / `addChatMessageSync`,
vectorStore.ts lines 237-244 and 261-268: push the message, update
`lastActivity`, and trim to the most recent `MAX_RECENT_MESSAGES`
(`session.messages.slice(-15)` keeps the last 15). -/
def appendTrim (msgs : List ChatMessage) (m : ChatMessage) : List ChatMessage :=
  let msgs' := msgs ++ [m]
  if MAX_RECENT_MESSAGES < msgs'.length then
    msgs'.drop (msgs'.length - MAX_RECENT_MESSAGES)
  else msgs'

/-- Lines 237-244 (identically 261-268): fetch/create the current session and
mutate it in place - push, set `lastActivity := now`, trim. -/
def addChatMessageSession (st : StoreState) (m : ChatMessage) (now : Nat) :
    StoreState :=
  let r := getCurrentSession st m.userId now
  let sess' := { r.2.1 with messages := appendTrim r.2.1.messages m,
                            lastActivity := now }
  { r.2.2 with sessions := setSession r.2.2.sessions r.1 sess' }

/-- The document built from a chat message, vectorStore.ts lines 188-196. -/
def messageToDocument (m : ChatMessage) : Document :=
  ⟨m.role ++ ": " ++ m.content,
    ⟨some m.id, some m.role, some m.userId, some (toString m.timestamp),
      none, none⟩⟩

/-- The queue drain inside `_initializeVectorStoreWithKey`, vectorStore.ts
lines 219-228: every copied message is embedded with the user's key
(`Promise.all`, so every message is attempted; a single failure rejects the
whole call but successful insertions persist; the concurrent insertion order
is modelled as queue order).  Starting from the store that holds just the
sentinel, returns the final document list and whether any embedding failed. -/
def drainFold (embedOk : ChatMessage → Bool) (msgs : List ChatMessage) :
    List Document × Bool :=
  msgs.foldl
    (fun acc m =>
      if embedOk m then (acc.1 ++ [messageToDocument m], acc.2)
      else (acc.1, true))
    ([initDoc], false)

/-- `_initializeVectorStoreWithKey`, vectorStore.ts lines 206-233: build the
store seeded with the sentinel; then, if the pending queue is non-empty, copy
it, clear it, and embed every copied message (`drainFold`).  If `fromTexts`
itself fails (`initOk = false`), nothing is mutated and the error
propagates. -/
def initVectorStoreWithKey (initOk : Bool) (embedOk : ChatMessage → Bool)
    (st : StoreState) : StoreState × Except EmbedError Unit :=
  if initOk then
    if 0 < st.pendingMessages.length then
      ({ st with
          vectorStore := some ⟨(drainFold embedOk st.pendingMessages).1⟩,
          pendingMessages := [] },
        if (drainFold embedOk st.pendingMessages).2 then
          Except.error EmbedError.providerError
        else Except.ok ())
    else ({ st with vectorStore := some ⟨[initDoc]⟩ }, Except.ok ())
  else (st, Except.error EmbedError.providerError)

/-- `_addMessageToStore`, vectorStore.ts lines 174-204: with no credential the
message is appended to the pending queue and the call resolves; with a
credential the store is built first if absent (errors propagate), then the
message is embedded and appended (`addDocuments`). -/
def addMessageToStore (initOk : Bool) (embedOk : ChatMessage → Bool)
    (st : StoreState) (m : ChatMessage) (hasKey : Bool) :
    StoreState × Except EmbedError Unit :=
  if hasKey then
    match st.vectorStore with
    | some store =>
        if embedOk m then
          ({ st with vectorStore := some ⟨store.docs ++ [messageToDocument m]⟩ },
            Except.ok ())
        else (st, Except.error EmbedError.providerError)
    | none =>
        let r := initVectorStoreWithKey initOk embedOk st
        match r.2 with
        | Except.error e => (r.1, Except.error e)
        | Except.ok _ =>
            match r.1.vectorStore with
            | some store =>
                if embedOk m then
                  ({ r.1 with
                      vectorStore := some ⟨store.docs ++ [messageToDocument m]⟩ },
                    Except.ok ())
                else (r.1, Except.error EmbedError.providerError)
            | none => (r.1, Except.error EmbedError.providerError)
  else ({ st with pendingMessages := st.pendingMessages ++ [m] }, Except.ok ())

/-- `addChatMessage`, vectorStore.ts lines 235-256: update the session; with a
falsy credential return at once (no vector storage); otherwise fire-and-forget
`_addMessageToStore` with the credential (its error is caught and logged, so
only the state effect remains). -/
def addChatMessage (initOk : Bool) (embedOk : ChatMessage → Bool)
    (st : StoreState) (m : ChatMessage) (userApiKey : Option String)
    (now : Nat) : StoreState :=
  let st1 := addChatMessageSession st m now
  if strFalsy userApiKey then st1
  else (addMessageToStore initOk embedOk st1 m true).1

/-- `addChatMessageSync`, vectorStore.ts lines 259-276: same as
`addChatMessage` but the vector-store write is awaited, so its error
propagates to the caller. -/
def addChatMessageSync (initOk : Bool) (embedOk : ChatMessage → Bool)
    (st : StoreState) (m : ChatMessage) (userApiKey : Option String)
    (now : Nat) : StoreState × Except EmbedError Unit :=
  let st1 := addChatMessageSession st m now
  if strFalsy userApiKey then (st1, Except.ok ())
  else addMessageToStore initOk embedOk st1 m true

/-- The per-result filter of `searchRelevantHistory`, vectorStore.ts lines
309-314: same user, score strictly above 0.6, and not the sentinel (metadata
id `init`).  Scores are rationals. -/
def historyHit (u : String) (p : Document × Rat) : Bool :=
  decide (p.1.metadata.userId = some u ∧ mkRat 3 5 < p.2 ∧
    p.1.metadata.id ≠ some "init")

/-- The part of `searchRelevantHistory` after the store exists, vectorStore.ts
lines 298-323: empty/whitespace queries short-circuit to `[]`; a rejected
similarity search is caught and yields `[]`; otherwise filter, project to the
document, and truncate to `limit`. -/
def searchRelevantHistoryBody (searchOutcome : Option (List (Document × Rat)))
    (st : StoreState) (query : String) (userId : String) (limit : Nat) :
    StoreState × Except EmbedError (List Document) :=
  if isBlank query then (st, Except.ok [])
  else
    match searchOutcome with
    | none => (st, Except.ok [])
    | some results =>
        (st, Except.ok
          (((results.filter (historyHit userId)).map (fun p => p.1)).take limit))

/-- `searchRelevantHistory`, vectorStore.ts lines 278-324: falsy credential
short-circuits to `[]`; with a credential the store is built first if absent,
a build failure being caught and yielding `[]`; then the body runs.  (JS
checks `!query || query.trim().length === 0`; for strings this is exactly
`query.trim().length === 0`.) -/
def searchRelevantHistory (initOk : Bool) (embedOk : ChatMessage → Bool)
    (searchOutcome : Option (List (Document × Rat))) (st : StoreState)
    (query : String) (userId : String) (userApiKey : Option String)
    (limit : Nat) : StoreState × Except EmbedError (List Document) :=
  if strFalsy userApiKey then (st, Except.ok [])
  else
    match st.vectorStore with
    | none =>
        let r := initVectorStoreWithKey initOk embedOk st
        match r.2 with
        | Except.error _ => (r.1, Except.ok [])
        | Except.ok _ => searchRelevantHistoryBody searchOutcome r.1 query userId limit
    | some _ => searchRelevantHistoryBody searchOutcome st query userId limit

/-- The per-result filter of `searchRelevantDocuments` for a non-empty query,
vectorStore.ts lines 456-459: same user, tagged `document_chunk`, score
strictly above 0.6. -/
def documentHit (u : String) (p : Document × Rat) : Bool :=
  decide (p.1.metadata.userId = some u ∧
    p.1.metadata.type = some "document_chunk" ∧ mkRat 3 5 < p.2)

/-- The per-result filter of `searchRelevantDocuments` for an empty query,
vectorStore.ts lines 440-443: same user and tagged `document_chunk` (no score
threshold). -/
def documentAnyHit (u : String) (p : Document × Rat) : Bool :=
  decide (p.1.metadata.userId = some u ∧
    p.1.metadata.type = some "document_chunk")

/-- The part of `searchRelevantDocuments` after the store exists,
vectorStore.ts lines 435-470: an empty query lists the user's document chunks
(search for the literal `'document'` with `limit * 5` candidates); otherwise
the scored filter applies; every rejected similarity search is caught and
yields `[]`. -/
def searchRelevantDocumentsBody (searchOutcome : Option (List (Document × Rat)))
    (st : StoreState) (query : String) (userId : String) (limit : Nat) :
    StoreState × Except EmbedError (List Document) :=
  if isBlank query then
    match searchOutcome with
    | none => (st, Except.ok [])
    | some results =>
        (st, Except.ok
          (((results.filter (documentAnyHit userId)).map (fun p => p.1)).take limit))
  else
    match searchOutcome with
    | none => (st, Except.ok [])
    | some results =>
        (st, Except.ok
          (((results.filter (documentHit userId)).map (fun p => p.1)).take limit))

/-- `searchRelevantDocuments`, vectorStore.ts lines 415-470: the same
credential/lazy-build wrapper as `searchRelevantHistory`. -/
def searchRelevantDocuments (initOk : Bool) (embedOk : ChatMessage → Bool)
    (searchOutcome : Option (List (Document × Rat))) (st : StoreState)
    (query : String) (userId : String) (userApiKey : Option String)
    (limit : Nat) : StoreState × Except EmbedError (List Document) :=
  if strFalsy userApiKey then (st, Except.ok [])
  else
    match st.vectorStore with
    | none =>
        let r := initVectorStoreWithKey initOk embedOk st
        match r.2 with
        | Except.error _ => (r.1, Except.ok [])
        | Except.ok _ => searchRelevantDocumentsBody searchOutcome r.1 query userId limit
    | some _ => searchRelevantDocumentsBody searchOutcome st query userId limit

/-- `startNewConversation`, vectorStore.ts lines 348-354: drop the user's
current-session pointer, then `getCurrentSession` (which now necessarily
creates a fresh empty session); return its id. -/
def startNewConversation (st : StoreState) (u : String) (now : Nat) :
    Nat × StoreState :=
  let st1 := { st with pointers := erasePointer st.pointers u }
  let r := getCurrentSession st1 u now
  (r.2.1.sessionId, r.2.2)

/-- Expiry test of `cleanupExpiredSessions`, vectorStore.ts lines 79-80:
`(now - lastActivity) / 3600000 > 48` over JS reals, i.e.
`now - lastActivity > 48 * 3600000`; for `lastActivity` in the future the JS
quotient is negative and the test false, matching truncated Nat
subtraction. -/
def isExpired (now last : Nat) : Bool :=
  decide (MAX_SESSION_AGE_HOURS * 3600000 < now - last)

/-- One iteration of the `expiredSessions.forEach` loop, vectorStore.ts lines
85-94: re-fetch the session, delete it, and delete the user's pointer if it
still points at this session. -/
def cleanupStep (acc : StoreState) (sid : Nat) : StoreState :=
  match lookupSession acc.sessions sid with
  | none => acc
  | some sess =>
      if lookupPointer acc.pointers sess.userId = some sid then
        { acc with sessions := eraseSession acc.sessions sid,
                   pointers := erasePointer acc.pointers sess.userId }
      else { acc with sessions := eraseSession acc.sessions sid }

/-- `cleanupExpiredSessions`, vectorStore.ts lines 74-99: collect the ids of
expired sessions, then delete each (and the matching user pointer). -/
def cleanupExpiredSessions (now : Nat) (st : StoreState) : StoreState :=
  let expired :=
    (st.sessions.filter (fun p => isExpired now p.2.lastActivity)).map
      (fun p => p.1)
  expired.foldl cleanupStep st

/-- The RECENT CONVERSATION lines, chatService.ts lines 61-63:
`recentMessages.slice(-8)` formatted as `role: content`. -/
def recentContextOf (recent : List ChatMessage) : List String :=
  (recent.drop (recent.length - 8)).map (fun m => m.role ++ ": " ++ m.content)

/-- The RELEVANT HISTORY lines, chatService.ts lines 65-72: semantic hits
whose metadata id equals the id of some recent message are dropped
(deduplication), then page contents, truncated to 4. -/
def semanticContextOf (relevantHistory : List Document)
    (recent : List ChatMessage) : List String :=
  ((relevantHistory.filter
      (fun d => decide (d.metadata.id ∉ recent.map (fun m => some m.id)))).map
    (fun d => d.pageContent)).take 4

/-- The DOCUMENTS lines, chatService.ts lines 74-76 (an absent `fileName`
renders as the string `undefined` in JS template literals). -/
def documentContextOf (docs : List Document) : List String :=
  (docs.map (fun d =>
    "Document: " ++ d.metadata.fileName.getD "undefined" ++ "\nContent: " ++
      d.pageContent)).take 3

/-- The `contextSections` array, chatService.ts lines 79-93: one labelled
joined segment per non-empty section, in the order recent / semantic /
documents.  This is also the `relevantContext` of the response (line 145). -/
def contextSections (recent : List ChatMessage) (hist docs : List Document) :
    List String :=
  (if 0 < (recentContextOf recent).length then
    ["RECENT CONVERSATION:\n" ++ String.intercalate "\n" (recentContextOf recent)]
  else []) ++
  (if 0 < (semanticContextOf hist recent).length then
    ["RELEVANT HISTORY:\n" ++
      String.intercalate "\n\n" (semanticContextOf hist recent)]
  else []) ++
  (if 0 < (documentContextOf docs).length then
    ["DOCUMENTS:\n" ++ String.intercalate "\n\n" (documentContextOf docs)]
  else [])

/-- The `contextUsed` flag returned by the chat route, chat.ts line 45:
`(response.relevantContext?.length ?? 0) > 0`, where `relevantContext` is the
`contextSections` built by `processChat` from the recent messages (step 1),
the semantic history hits (step 2) and the document hits (step 3). -/
def contextUsedOf (recent : List ChatMessage) (hist docs : List Document) :
    Bool :=
  decide (0 < (contextSections recent hist docs).length)

/-- Follows the spec's words for claim C2 (spec section 4.5): `usedContext` is
true iff step 2 (semantic chat-history search) or step 3 (document search)
produced at least one hit.  Stated for comparison with `contextUsedOf`, which
is translated from the code. -/
def usedContextSpec (hist docs : List Document) : Bool :=
  decide (hist ≠ [] ∨ docs ≠ [])

/-- Modelled from the spec: the text splitter of the Document Ingestion
Pipeline is langchain's `RecursiveCharacterTextSplitter`, library code that is
not part of this repository; `src/unnamed/part_007` only configures it with
`chunkSize 1000`, `chunkOverlap 200` and separators down to the empty string.
Following spec section 4.4 (chunks near the target size with a fixed overlap
of 200 between consecutive chunks, deterministic order), the character-level
regime is modelled: chunks start every `1000 - 200 = 800` units and are 1000
units long, the last chunk being truncated at the end of the text.
`numChunks L` is the number of chunks of a text of length `L`. -/
def numChunks (L : Nat) : Nat :=
  if h0 : L = 0 then 0
  else if h1 : L ≤ 1000 then 1
  else 1 + numChunks (L - 800)
termination_by L
decreasing_by omega

/-- Modelled from the spec: the start offsets of the chunks (multiples of
800). -/
def chunkStarts (L : Nat) : List Nat :=
  (List.range (numChunks L)).map (fun i => i * 800)

/-- Modelled from the spec: `textSplitter.splitText`, character-level regime
(see `numChunks`).  The text is a list of units. -/
def splitText {α : Type} (xs : List α) : List (List α) :=
  (chunkStarts xs.length).map (fun s => (xs.drop s).take 1000)

/-- Document chunk as produced by `processDocument`, part_007 lines 74-85:
each split chunk tagged with its sequence index and the total count. -/
structure SplitChunk (α : Type) where
  content : List α
  chunkIndex : Nat
  totalChunks : Nat
deriving DecidableEq

/-- The chunk list built by `processDocument`, part_007 lines 67-85:
`textChunks.map((chunk, index) => ...)` with `chunkIndex := index` and
`totalChunks := textChunks.length`. -/
def processDocumentChunks {α : Type} (text : List α) : List (SplitChunk α) :=
  let tcs := splitText text
  tcs.mapIdx (fun i c => ⟨c, i, tcs.length⟩)

/-- A single chat-ingestion call for stating sequences of appends: which entry
point (`sync` selects `addChatMessageSync`), the message, the credential, the
clock reading, and the provider oracle for this call. -/
structure ChatOp where
  msg : ChatMessage
  userApiKey : Option String
  now : Nat
  sync : Bool
  initOk : Bool
  embedAllOk : Bool
deriving DecidableEq

/-- Run one chat-ingestion call. -/
def applyChatOp (st : StoreState) (op : ChatOp) : StoreState :=
  if op.sync then
    (addChatMessageSync op.initOk (fun _ => op.embedAllOk) st op.msg
      op.userApiKey op.now).1
  else
    addChatMessage op.initOk (fun _ => op.embedAllOk) st op.msg op.userApiKey
      op.now

/-- Every stored session holds at most `MAX_RECENT_MESSAGES` messages. -/
def sessionsBounded (st : StoreState) : Prop :=
  ∀ p ∈ st.sessions, p.2.messages.length ≤ MAX_RECENT_MESSAGES

/-- Sample message used by concrete witnesses. -/
def mA : ChatMessage := ⟨"m-a", "user", "hello", 0, "alice"⟩

/-- Second sample message used by concrete witnesses. -/
def mB : ChatMessage := ⟨"m-b", "assistant", "hi there", 1, "alice"⟩

/-- Sample document chunk owned by alice, used by concrete witnesses. -/
def docA : Document :=
  ⟨"quarterly report",
    ⟨some "d-1", none, some "alice", none, some "document_chunk",
      some "report.txt"⟩⟩

/-- Sample state with one message waiting in the pending queue and no store
yet. -/
def stPending : StoreState := ⟨none, [mA], [], [], 0⟩

/-- Sample state in which alice has one (empty) current session with id 0. -/
def stAlice : StoreState :=
  ⟨none, [], [(0, ⟨0, "alice", [], 5, 5⟩)], [("alice", 0)], 1⟩

/-- Sample state for the TTL sweep: alice's session is 49 hours idle at
`nowSweep`, bob's 47 hours. -/
def stSweep : StoreState :=
  ⟨none, [],
    [(0, ⟨0, "alice", [], 0, 0⟩), (1, ⟨1, "bob", [], 2 * 3600000, 0⟩)],
    [("alice", 0), ("bob", 1)], 2⟩

/-- The sweep instant for `stSweep`: 49 hours after alice's last activity. -/
def nowSweep : Nat := 49 * 3600000

end EmailAssistant

namespace EmailAssistant

/-! ## Plumbing lemmas: which state components each operation leaves alone -/

theorem initVectorStoreWithKey_session_state (initOk : Bool)
    (embedOk : ChatMessage → Bool) (st : StoreState) :
    (initVectorStoreWithKey initOk embedOk st).1.sessions = st.sessions ∧
    (initVectorStoreWithKey initOk embedOk st).1.pointers = st.pointers ∧
    (initVectorStoreWithKey initOk embedOk st).1.nextId = st.nextId := by
  unfold initVectorStoreWithKey
  split
  · split
    · exact ⟨rfl, rfl, rfl⟩
    · exact ⟨rfl, rfl, rfl⟩
  · exact ⟨rfl, rfl, rfl⟩

theorem addMessageToStore_session_state (initOk : Bool)
    (embedOk : ChatMessage → Bool) (st : StoreState) (m : ChatMessage)
    (hk : Bool) :
    (addMessageToStore initOk embedOk st m hk).1.sessions = st.sessions ∧
    (addMessageToStore initOk embedOk st m hk).1.pointers = st.pointers ∧
    (addMessageToStore initOk embedOk st m hk).1.nextId = st.nextId := by
  obtain ⟨h1, h2, h3⟩ := initVectorStoreWithKey_session_state initOk embedOk st
  unfold addMessageToStore
  dsimp only
  split
  · split
    · split
      · exact ⟨rfl, rfl, rfl⟩
      · exact ⟨rfl, rfl, rfl⟩
    · split
      · exact ⟨h1, h2, h3⟩
      · split
        · split
          · exact ⟨h1, h2, h3⟩
          · exact ⟨h1, h2, h3⟩
        · exact ⟨h1, h2, h3⟩
  · exact ⟨rfl, rfl, rfl⟩

theorem addChatMessageSession_vector_state (st : StoreState) (m : ChatMessage)
    (now : Nat) :
    (addChatMessageSession st m now).pendingMessages = st.pendingMessages ∧
    (addChatMessageSession st m now).vectorStore = st.vectorStore := by
  unfold addChatMessageSession getCurrentSession createSession
  dsimp only
  split
  · split
    · exact ⟨rfl, rfl⟩
    · exact ⟨rfl, rfl⟩
  · exact ⟨rfl, rfl⟩

end EmailAssistant

namespace EmailAssistant

/-! ## Claim C3: addChatMessage without a credential -/

/-- Claim C3 (amended): an `addChatMessage` call with no credential only
updates the caller's conversation session and returns; it neither touches the
Pending Queue nor creates a vector index.  In particular any number of
first-time no-credential calls leave the Pending Queue empty and no index
created (the queue length 2 predicted by the spec never materialises, see the
counterexample). -/
theorem addChatMessage_noKey_state (initOk : Bool)
    (embedOk : ChatMessage → Bool) (st : StoreState) (m : ChatMessage)
    (now : Nat) :
    (addChatMessage initOk embedOk st m none now).pendingMessages =
      st.pendingMessages ∧
    (addChatMessage initOk embedOk st m none now).vectorStore =
      st.vectorStore := by
  obtain ⟨h1, h2⟩ := addChatMessageSession_vector_state st m now
  unfold addChatMessage
  exact ⟨h1, h2⟩

/-- Claim C3 counterexample: two first-time `addChatMessage` calls with no
credential leave the Pending Queue empty - not of length 2 as claimed - while
indeed creating no index. -/
theorem addChatMessage_noKey_counterexample :
    (addChatMessage true (fun _ => true)
        (addChatMessage true (fun _ => true) emptyState mA none 0)
        mB none 1).pendingMessages.length ≠ 2 ∧
    (addChatMessage true (fun _ => true)
        (addChatMessage true (fun _ => true) emptyState mA none 0)
        mB none 1).pendingMessages = [] ∧
    (addChatMessage true (fun _ => true)
        (addChatMessage true (fun _ => true) emptyState mA none 0)
        mB none 1).vectorStore = none := by
  decide

end EmailAssistant

namespace EmailAssistant

/-! ## Session-map lemmas -/

theorem appendTrim_length_le (msgs : List ChatMessage) (m : ChatMessage) :
    (appendTrim msgs m).length ≤ MAX_RECENT_MESSAGES := by
  unfold appendTrim MAX_RECENT_MESSAGES
  dsimp only
  split
  · simp only [List.length_drop, List.length_append, List.length_cons,
      List.length_nil]
    omega
  · omega

theorem mem_setSession (ss : List (Nat × Session)) (k : Nat) (s : Session)
    (p : Nat × Session) (hp : p ∈ setSession ss k s) : p = (k, s) ∨ p ∈ ss := by
  unfold setSession at hp
  rcases List.mem_cons.mp hp with h | h
  · exact Or.inl h
  · exact Or.inr (List.mem_of_mem_filter h)

theorem lookupSession_setSession_self (ss : List (Nat × Session)) (k : Nat)
    (s : Session) : lookupSession (setSession ss k s) k = some s := by
  simp [lookupSession, setSession]

theorem lookupPointer_setPointer_self (ps : List (String × Nat)) (u : String)
    (v : Nat) : lookupPointer (setPointer ps u v) u = some v := by
  simp [lookupPointer, setPointer]

theorem sessionsBounded_congr (st st' : StoreState)
    (hs : st'.sessions = st.sessions) (h : sessionsBounded st) :
    sessionsBounded st' := by
  unfold sessionsBounded at *
  rw [hs]
  exact h

theorem addChatMessageSession_bounded (st : StoreState) (m : ChatMessage)
    (now : Nat) (h : sessionsBounded st) :
    sessionsBounded (addChatMessageSession st m now) := by
  intro p hp
  unfold addChatMessageSession getCurrentSession createSession at hp
  cases hpt : lookupPointer st.pointers m.userId with
  | some sid =>
      simp only [hpt] at hp
      cases hs : lookupSession st.sessions sid with
      | some sess =>
          simp only [hs] at hp
          rcases mem_setSession _ _ _ p hp with rfl | hp'
          · exact appendTrim_length_le sess.messages m
          · exact h p hp'
      | none =>
          simp only [hs] at hp
          rcases mem_setSession _ _ _ p hp with rfl | hp'
          · exact appendTrim_length_le [] m
          · rcases mem_setSession _ _ _ p hp' with rfl | hp''
            · simp
            · exact h p hp''
  | none =>
      simp only [hpt] at hp
      rcases mem_setSession _ _ _ p hp with rfl | hp'
      · exact appendTrim_length_le [] m
      · rcases mem_setSession _ _ _ p hp' with rfl | hp''
        · simp
        · exact h p hp''

theorem addChatMessage_session_parts (initOk : Bool)
    (embedOk : ChatMessage → Bool) (st : StoreState) (m : ChatMessage)
    (key : Option String) (now : Nat) :
    (addChatMessage initOk embedOk st m key now).sessions =
      (addChatMessageSession st m now).sessions ∧
    (addChatMessage initOk embedOk st m key now).pointers =
      (addChatMessageSession st m now).pointers := by
  unfold addChatMessage
  dsimp only
  split
  · exact ⟨rfl, rfl⟩
  · exact ⟨(addMessageToStore_session_state _ _ _ _ _).1,
      (addMessageToStore_session_state _ _ _ _ _).2.1⟩

theorem addChatMessageSync_session_parts (initOk : Bool)
    (embedOk : ChatMessage → Bool) (st : StoreState) (m : ChatMessage)
    (key : Option String) (now : Nat) :
    (addChatMessageSync initOk embedOk st m key now).1.sessions =
      (addChatMessageSession st m now).sessions ∧
    (addChatMessageSync initOk embedOk st m key now).1.pointers =
      (addChatMessageSession st m now).pointers := by
  unfold addChatMessageSync
  dsimp only
  split
  · exact ⟨rfl, rfl⟩
  · exact ⟨(addMessageToStore_session_state _ _ _ _ _).1,
      (addMessageToStore_session_state _ _ _ _ _).2.1⟩

theorem applyChatOp_bounded (st : StoreState) (op : ChatOp)
    (h : sessionsBounded st) : sessionsBounded (applyChatOp st op) := by
  have hb := addChatMessageSession_bounded st op.msg op.now h
  unfold applyChatOp
  split
  · exact sessionsBounded_congr _ _
      (addChatMessageSync_session_parts _ _ _ _ _ _).1 hb
  · exact sessionsBounded_congr _ _
      (addChatMessage_session_parts _ _ _ _ _ _).1 hb

theorem foldl_applyChatOp_bounded :
    ∀ (ops : List ChatOp) (st : StoreState), sessionsBounded st →
      sessionsBounded (ops.foldl applyChatOp st) := by
  intro ops
  induction ops with
  | nil => intro st h; exact h
  | cons op rest ih =>
      intro st h
      exact ih (applyChatOp st op) (applyChatOp_bounded st op h)

theorem addChatMessageSession_current (st : StoreState) (m : ChatMessage)
    (now : Nat) :
    ∃ s, currentSessionOf (addChatMessageSession st m now) m.userId = some s ∧
      s.lastActivity = now ∧ s.messages.length ≤ MAX_RECENT_MESSAGES := by
  unfold addChatMessageSession getCurrentSession createSession
  cases hpt : lookupPointer st.pointers m.userId with
  | some sid =>
      dsimp only
      cases hs : lookupSession st.sessions sid with
      | some sess =>
          dsimp only
          refine ⟨{ sess with messages := appendTrim sess.messages m,
                              lastActivity := now }, ?_, rfl,
            appendTrim_length_le sess.messages m⟩
          simp [currentSessionOf, hpt, lookupSession_setSession_self]
      | none =>
          dsimp only
          refine ⟨⟨st.nextId, m.userId, appendTrim [] m, now, now⟩, ?_, rfl,
            appendTrim_length_le [] m⟩
          simp [currentSessionOf, lookupPointer_setPointer_self,
            lookupSession_setSession_self]
  | none =>
      dsimp only
      refine ⟨⟨st.nextId, m.userId, appendTrim [] m, now, now⟩, ?_, rfl,
        appendTrim_length_le [] m⟩
      simp [currentSessionOf, lookupPointer_setPointer_self,
        lookupSession_setSession_self]

end EmailAssistant

namespace EmailAssistant

/-! ## Claim C4: bounded sessions, lastActivity updated on append -/

/-- Claim C4: after any sequence of `addChatMessage` / `addChatMessageSync`
calls starting from the initial service state, every stored session holds at
most `MAX_RECENT_MESSAGES = 15` messages; moreover each append leaves the
caller's current session with `lastActivity` equal to the append time (and
still within the bound). -/
theorem sessions_bounded_and_activity :
    (∀ ops : List ChatOp, sessionsBounded (ops.foldl applyChatOp emptyState)) ∧
    (∀ (initOk : Bool) (embedOk : ChatMessage → Bool) (st : StoreState)
        (m : ChatMessage) (key : Option String) (now : Nat),
      ∃ s, currentSessionOf (addChatMessage initOk embedOk st m key now)
            m.userId = some s ∧
        s.lastActivity = now ∧ s.messages.length ≤ MAX_RECENT_MESSAGES) ∧
    (∀ (initOk : Bool) (embedOk : ChatMessage → Bool) (st : StoreState)
        (m : ChatMessage) (key : Option String) (now : Nat),
      ∃ s, currentSessionOf
            (addChatMessageSync initOk embedOk st m key now).1 m.userId =
              some s ∧
        s.lastActivity = now ∧ s.messages.length ≤ MAX_RECENT_MESSAGES) := by
  refine ⟨?_, ?_, ?_⟩
  · intro ops
    refine foldl_applyChatOp_bounded ops emptyState ?_
    intro p hp
    simp [emptyState] at hp
  · intro initOk embedOk st m key now
    obtain ⟨s, hcur, hact, hlen⟩ := addChatMessageSession_current st m now
    refine ⟨s, ?_, hact, hlen⟩
    rw [currentSessionOf, (addChatMessage_session_parts initOk embedOk st m
      key now).1, (addChatMessage_session_parts initOk embedOk st m key now).2]
    exact hcur
  · intro initOk embedOk st m key now
    obtain ⟨s, hcur, hact, hlen⟩ := addChatMessageSession_current st m now
    refine ⟨s, ?_, hact, hlen⟩
    rw [currentSessionOf, (addChatMessageSync_session_parts initOk embedOk st m
      key now).1, (addChatMessageSync_session_parts initOk embedOk st m key
      now).2]
    exact hcur

/-- Concrete instance of claim C4: one no-credential append starting from the
initial state keeps sessions bounded, and an append at time 7 leaves alice's
current session with `lastActivity = 7`. -/
theorem sessions_bounded_and_activity_witness :
    sessionsBounded
      ([(⟨mA, none, 3, false, true, true⟩ : ChatOp)].foldl applyChatOp
        emptyState) ∧
    ∃ s, currentSessionOf (addChatMessage true (fun _ => true) emptyState mA
          none 7) mA.userId = some s ∧
      s.lastActivity = 7 ∧ s.messages.length ≤ MAX_RECENT_MESSAGES :=
  ⟨sessions_bounded_and_activity.1 [⟨mA, none, 3, false, true, true⟩],
    sessions_bounded_and_activity.2.1 true (fun _ => true) emptyState mA
      none 7⟩

end EmailAssistant

namespace EmailAssistant

/-! ## Search lemmas -/

theorem ne_initDoc_of_userId (d : Document) (u : String)
    (h : d.metadata.userId = some u) : d ≠ initDoc := by
  intro hc
  rw [hc] at h
  simp [initDoc] at h

theorem searchRelevantHistoryBody_fst (o : Option (List (Document × Rat)))
    (st : StoreState) (q u : String) (limit : Nat) :
    (searchRelevantHistoryBody o st q u limit).1 = st := by
  unfold searchRelevantHistoryBody
  split
  · rfl
  · split <;> rfl

theorem searchRelevantDocumentsBody_fst (o : Option (List (Document × Rat)))
    (st : StoreState) (q u : String) (limit : Nat) :
    (searchRelevantDocumentsBody o st q u limit).1 = st := by
  unfold searchRelevantDocumentsBody
  split <;> split <;> rfl

theorem searchRelevantHistoryBody_ok (o : Option (List (Document × Rat)))
    (st : StoreState) (q u : String) (limit : Nat) :
    ∃ l, (searchRelevantHistoryBody o st q u limit).2 = Except.ok l := by
  unfold searchRelevantHistoryBody
  split
  · exact ⟨[], rfl⟩
  · split
    · exact ⟨[], rfl⟩
    · exact ⟨_, rfl⟩

theorem searchRelevantDocumentsBody_ok (o : Option (List (Document × Rat)))
    (st : StoreState) (q u : String) (limit : Nat) :
    ∃ l, (searchRelevantDocumentsBody o st q u limit).2 = Except.ok l := by
  unfold searchRelevantDocumentsBody
  split <;> split
  · exact ⟨[], rfl⟩
  · exact ⟨_, rfl⟩
  · exact ⟨[], rfl⟩
  · exact ⟨_, rfl⟩

theorem searchRelevantHistoryBody_mem (o : Option (List (Document × Rat)))
    (st : StoreState) (q u : String) (limit : Nat) (l : List Document)
    (d : Document)
    (h : (searchRelevantHistoryBody o st q u limit).2 = Except.ok l)
    (hd : d ∈ l) :
    d.metadata.userId = some u ∧ d.metadata.id ≠ some "init" := by
  unfold searchRelevantHistoryBody at h
  split at h
  · cases h
    simp at hd
  · split at h
    · cases h
      simp at hd
    · cases h
      have hd' := List.mem_of_mem_take hd
      rcases List.mem_map.mp hd' with ⟨p, hp, rfl⟩
      have hpf := List.of_mem_filter hp
      unfold historyHit at hpf
      simp only [decide_eq_true_eq] at hpf
      exact ⟨hpf.1, hpf.2.2⟩

theorem searchRelevantDocumentsBody_mem (o : Option (List (Document × Rat)))
    (st : StoreState) (q u : String) (limit : Nat) (l : List Document)
    (d : Document)
    (h : (searchRelevantDocumentsBody o st q u limit).2 = Except.ok l)
    (hd : d ∈ l) :
    d.metadata.userId = some u ∧
      d.metadata.type = some "document_chunk" := by
  unfold searchRelevantDocumentsBody at h
  split at h
  · split at h
    · cases h
      simp at hd
    · cases h
      have hd' := List.mem_of_mem_take hd
      rcases List.mem_map.mp hd' with ⟨p, hp, rfl⟩
      have hpf := List.of_mem_filter hp
      unfold documentAnyHit at hpf
      simp only [decide_eq_true_eq] at hpf
      exact ⟨hpf.1, hpf.2⟩
  · split at h
    · cases h
      simp at hd
    · cases h
      have hd' := List.mem_of_mem_take hd
      rcases List.mem_map.mp hd' with ⟨p, hp, rfl⟩
      have hpf := List.of_mem_filter hp
      unfold documentHit at hpf
      simp only [decide_eq_true_eq] at hpf
      exact ⟨hpf.1, hpf.2.1⟩

end EmailAssistant

namespace EmailAssistant

/-! ## Claim C1: searches are user-scoped and never return the sentinel -/

/-- Claim C1: whatever the similarity-search oracle returns, every document
returned by `searchRelevantHistory` or `searchRelevantDocuments` for user `u`
carries `metadata.userId = u`, and the sentinel seed item is never among the
returned documents (for the history search its metadata id `init` is filtered
explicitly; for the document search the sentinel fails the `userId` and
`document_chunk` filters since its metadata carries neither field). -/
theorem search_scoped_no_sentinel (initOk : Bool) (embedOk : ChatMessage → Bool)
    (o : Option (List (Document × Rat))) (st : StoreState) (q u : String)
    (key : Option String) (limit : Nat) (l : List Document) (d : Document) :
    ((searchRelevantHistory initOk embedOk o st q u key limit).2 =
        Except.ok l → d ∈ l →
        d.metadata.userId = some u ∧ d.metadata.id ≠ some "init" ∧
          d ≠ initDoc) ∧
    ((searchRelevantDocuments initOk embedOk o st q u key limit).2 =
        Except.ok l → d ∈ l →
        d.metadata.userId = some u ∧ d ≠ initDoc) := by
  constructor
  · intro h hd
    unfold searchRelevantHistory at h
    split at h
    · cases h
      simp at hd
    · split at h
      · dsimp only at h
        split at h
        · cases h
          simp at hd
        · have hm := searchRelevantHistoryBody_mem _ _ _ _ _ _ _ h hd
          exact ⟨hm.1, hm.2, ne_initDoc_of_userId d u hm.1⟩
      · have hm := searchRelevantHistoryBody_mem _ _ _ _ _ _ _ h hd
        exact ⟨hm.1, hm.2, ne_initDoc_of_userId d u hm.1⟩
  · intro h hd
    unfold searchRelevantDocuments at h
    split at h
    · cases h
      simp at hd
    · split at h
      · dsimp only at h
        split at h
        · cases h
          simp at hd
        · have hm := searchRelevantDocumentsBody_mem _ _ _ _ _ _ _ h hd
          exact ⟨hm.1, ne_initDoc_of_userId d u hm.1⟩
      · have hm := searchRelevantDocumentsBody_mem _ _ _ _ _ _ _ h hd
        exact ⟨hm.1, ne_initDoc_of_userId d u hm.1⟩

/-- Concrete instance of claim C1: with a store whose similarity search
returns alice's document chunk with score 0.9, both searches return it and it
is alice's and not the sentinel. -/
theorem search_scoped_no_sentinel_witness :
    (docA.metadata.userId = some "alice" ∧ docA.metadata.id ≠ some "init" ∧
      docA ≠ initDoc) ∧
    (docA.metadata.userId = some "alice" ∧ docA ≠ initDoc) :=
  ⟨(search_scoped_no_sentinel true (fun _ => true) (some [(docA, mkRat 9 10)])
      emptyState "hello" "alice" (some "k") 5 [docA] docA).1 (by decide)
      (by decide),
    (search_scoped_no_sentinel true (fun _ => true) (some [(docA, mkRat 9 10)])
      emptyState "hello" "alice" (some "k") 5 [docA] docA).2 (by decide)
      (by decide)⟩

end EmailAssistant

namespace EmailAssistant

/-! ## Claim C9: explicit search never rejects -/

/-- Claim C9 (amended): the claim that explicit credentialed searches surface
initialization or similarity-search errors is false; both searches catch
every such error and resolve with a normal empty result.  The theorem states
that the result is always an `ok` value, and that it is `ok []` when the
similarity search rejects (`searchOutcome = none`) or when the store build
fails (`initOk = false` with no store yet). -/
theorem search_errors_swallowed (initOk : Bool) (embedOk : ChatMessage → Bool)
    (o : Option (List (Document × Rat))) (st : StoreState) (q u : String)
    (key : Option String) (limit : Nat) :
    (∃ l, (searchRelevantHistory initOk embedOk o st q u key limit).2 =
      Except.ok l) ∧
    (∃ l, (searchRelevantDocuments initOk embedOk o st q u key limit).2 =
      Except.ok l) ∧
    (o = none →
      (searchRelevantHistory initOk embedOk o st q u key limit).2 =
        Except.ok [] ∧
      (searchRelevantDocuments initOk embedOk o st q u key limit).2 =
        Except.ok []) ∧
    (initOk = false → st.vectorStore = none →
      (searchRelevantHistory initOk embedOk o st q u key limit).2 =
        Except.ok [] ∧
      (searchRelevantDocuments initOk embedOk o st q u key limit).2 =
        Except.ok []) := by
  refine ⟨?_, ?_, ?_, ?_⟩
  · unfold searchRelevantHistory
    split
    · exact ⟨[], rfl⟩
    · split
      · dsimp only
        split
        · exact ⟨[], rfl⟩
        · exact searchRelevantHistoryBody_ok _ _ _ _ _
      · exact searchRelevantHistoryBody_ok _ _ _ _ _
  · unfold searchRelevantDocuments
    split
    · exact ⟨[], rfl⟩
    · split
      · dsimp only
        split
        · exact ⟨[], rfl⟩
        · exact searchRelevantDocumentsBody_ok _ _ _ _ _
      · exact searchRelevantDocumentsBody_ok _ _ _ _ _
  · rintro rfl
    constructor
    · unfold searchRelevantHistory
      split
      · rfl
      · split
        · dsimp only
          split
          · rfl
          · unfold searchRelevantHistoryBody
            split
            · rfl
            · rfl
        · unfold searchRelevantHistoryBody
          split
          · rfl
          · rfl
    · unfold searchRelevantDocuments
      split
      · rfl
      · split
        · dsimp only
          split
          · rfl
          · unfold searchRelevantDocumentsBody
            split <;> rfl
        · unfold searchRelevantDocumentsBody
          split <;> rfl
  · rintro rfl hstore
    constructor
    · unfold searchRelevantHistory
      rw [hstore]
      split
      · rfl
      · dsimp only
        unfold initVectorStoreWithKey
        rfl
    · unfold searchRelevantDocuments
      rw [hstore]
      split
      · rfl
      · dsimp only
        unfold initVectorStoreWithKey
        rfl

/-- Concrete instance of claim C9 (amended): with a rejecting provider and no
store, both searches resolve with an empty list. -/
theorem search_errors_swallowed_witness :
    (searchRelevantHistory false (fun _ => true) none emptyState "hello"
      "alice" (some "k") 5).2 = Except.ok [] ∧
    (searchRelevantDocuments false (fun _ => true) none emptyState "hello"
      "alice" (some "k") 5).2 = Except.ok [] :=
  (search_errors_swallowed false (fun _ => true) none emptyState "hello"
    "alice" (some "k") 5).2.2.2 rfl rfl

/-- Claim C9 counterexample: with a credential present and a failing store
build (and a rejecting similarity search), `searchRelevantHistory` does not
reject - it resolves with `ok []`, converting the error into a normal empty
result; likewise `searchRelevantDocuments`. -/
theorem search_errors_swallowed_counterexample :
    (searchRelevantHistory false (fun _ => true) none emptyState "hello"
      "alice" (some "k") 5).2 = Except.ok [] ∧
    (searchRelevantHistory false (fun _ => true) none emptyState "hello"
      "alice" (some "k") 5).2 ≠ Except.error EmbedError.providerError ∧
    (searchRelevantDocuments false (fun _ => true) none emptyState "hello"
      "alice" (some "k") 5).2 ≠ Except.error EmbedError.providerError := by
  decide

end EmailAssistant

namespace EmailAssistant

/-! ## Claim C10: empty or whitespace query -/

theorem searchRelevantHistoryBody_blank (o : Option (List (Document × Rat)))
    (st : StoreState) (q u : String) (limit : Nat)
    (hq : isBlank q = true) :
    searchRelevantHistoryBody o st q u limit = (st, Except.ok []) := by
  unfold searchRelevantHistoryBody
  rw [hq]
  rfl

/-- Claim C10 (amended): a `searchRelevantHistory` call with an empty or
all-whitespace query resolves with the empty list, never rejects, performs no
similarity search (the result does not depend on the similarity-search
oracle), and leaves sessions untouched; the vector index is also untouched
whenever the credential is falsy or the store already exists - but when no
store exists and a credential is present, the call first initializes the
store (seeding the sentinel and draining the pending queue) before the
empty-query check returns, so the index is not left unchanged in that one
case (see the counterexample). -/
theorem search_blank_query (initOk : Bool) (embedOk : ChatMessage → Bool)
    (o : Option (List (Document × Rat))) (st : StoreState) (q u : String)
    (key : Option String) (limit : Nat) (hq : isBlank q = true) :
    (searchRelevantHistory initOk embedOk o st q u key limit).2 =
      Except.ok [] ∧
    (searchRelevantHistory initOk embedOk o st q u key limit).1.sessions =
      st.sessions ∧
    (searchRelevantHistory initOk embedOk o st q u key limit).1.pointers =
      st.pointers ∧
    (searchRelevantHistory initOk embedOk o st q u key limit).1.nextId =
      st.nextId ∧
    (strFalsy key = true ∨ st.vectorStore ≠ none →
      (searchRelevantHistory initOk embedOk o st q u key limit).1 = st) ∧
    (∀ o2, searchRelevantHistory initOk embedOk o st q u key limit =
      searchRelevantHistory initOk embedOk o2 st q u key limit) := by
  have hstate := initVectorStoreWithKey_session_state initOk embedOk st
  unfold searchRelevantHistory
  split
  · exact ⟨rfl, rfl, rfl, rfl, fun _ => rfl, fun o2 => rfl⟩
  · rename_i hkey
    split
    · rename_i hnone
      dsimp only
      split
      · refine ⟨rfl, hstate.1, hstate.2.1, hstate.2.2, ?_, ?_⟩
        · rintro (hfal | hsome)
          · exact absurd hfal hkey
          · exact absurd hnone hsome
        · intro o2
          rfl
      · rw [searchRelevantHistoryBody_blank _ _ _ _ _ hq]
        refine ⟨rfl, hstate.1, hstate.2.1, hstate.2.2, ?_, ?_⟩
        · rintro (hfal | hsome)
          · exact absurd hfal hkey
          · exact absurd hnone hsome
        · intro o2
          rw [searchRelevantHistoryBody_blank _ _ _ _ _ hq]
    · rw [searchRelevantHistoryBody_blank _ _ _ _ _ hq]
      refine ⟨rfl, rfl, rfl, rfl, fun _ => rfl, ?_⟩
      intro o2
      rw [searchRelevantHistoryBody_blank _ _ _ _ _ hq]

/-- Concrete instance of claim C10 (amended): a one-space query with a
credential and an existing store returns `ok []` and leaves the whole state
unchanged. -/
theorem search_blank_query_witness :
    (searchRelevantHistory true (fun _ => true) (some [(docA, mkRat 9 10)])
      ⟨some ⟨[initDoc]⟩, [], [], [], 0⟩ " " "alice" (some "k") 5).2 =
      Except.ok [] ∧
    (searchRelevantHistory true (fun _ => true) (some [(docA, mkRat 9 10)])
      ⟨some ⟨[initDoc]⟩, [], [], [], 0⟩ " " "alice" (some "k") 5).1 =
      ⟨some ⟨[initDoc]⟩, [], [], [], 0⟩ :=
  ⟨(search_blank_query true (fun _ => true) (some [(docA, mkRat 9 10)])
      ⟨some ⟨[initDoc]⟩, [], [], [], 0⟩ " " "alice" (some "k") 5
      (by decide)).1,
    (search_blank_query true (fun _ => true) (some [(docA, mkRat 9 10)])
      ⟨some ⟨[initDoc]⟩, [], [], [], 0⟩ " " "alice" (some "k") 5
      (by decide)).2.2.2.2.1 (Or.inr (by decide))⟩

/-- Claim C10 counterexample: a whitespace query with a credential and no
store yet does change the vector index - the lazy build (sentinel seeding)
runs before the empty-query check - contradicting the claim that the vector
index is left unchanged. -/
theorem search_blank_query_counterexample :
    (searchRelevantHistory true (fun _ => true) none emptyState " " "alice"
      (some "k") 5).1.vectorStore = some ⟨[initDoc]⟩ ∧
    emptyState.vectorStore = none ∧
    (searchRelevantHistory true (fun _ => true) none emptyState " " "alice"
      (some "k") 5).2 = Except.ok [] := by
  decide

end EmailAssistant

namespace EmailAssistant

/-! ## Claim C2: the contextUsed flag -/

/-- Claim C2 (amended): the `contextUsed` boolean returned by the chat route
is true iff at least one context section is non-empty - that is, iff there is
at least one recent session message (step 1), or the semantic history search
produced a hit that survives deduplication against the recent messages
(step 2), or the document search produced a hit (step 3).  In particular
recent messages alone do make it true, contradicting the claim as stated (see
the counterexample). -/
theorem contextUsed_iff (r : List ChatMessage) (hist docs : List Document) :
    contextUsedOf r hist docs =
      (decide (r ≠ []) || decide (semanticContextOf hist r ≠ []) ||
        decide (docs ≠ [])) := by
  have hr : (0 < (recentContextOf r).length) ↔ r ≠ [] := by
    rw [← List.length_pos]
    unfold recentContextOf
    rw [List.length_map, List.length_drop]
    omega
  have hs : (0 < (semanticContextOf hist r).length) ↔
      semanticContextOf hist r ≠ [] := List.length_pos
  have hd : (0 < (documentContextOf docs).length) ↔ docs ≠ [] := by
    rw [← List.length_pos]
    unfold documentContextOf
    rw [List.length_take, List.length_map]
    omega
  unfold contextUsedOf contextSections
  split_ifs with c1 c2 c3 <;> simp_all [List.length_append]

/-- Claim C2 counterexample: with one recent message, no semantic history hit
and no document hit (steps 2 and 3 both empty), the code reports
`contextUsed = true` while the spec's `usedContext` is false. -/
theorem contextUsed_counterexample :
    contextUsedOf [mA] [] [] = true ∧ usedContextSpec [] [] = false := by
  decide

end EmailAssistant

namespace EmailAssistant

/-! ## Claim C6: the pending-queue drain -/

theorem drainFoldAux_all_ok (embedOk : ChatMessage → Bool) :
    ∀ (msgs : List ChatMessage) (acc : List Document),
      (∀ m ∈ msgs, embedOk m = true) →
      msgs.foldl
        (fun acc m =>
          if embedOk m then (acc.1 ++ [messageToDocument m], acc.2)
          else (acc.1, true))
        (acc, false) =
      (acc ++ msgs.map messageToDocument, false) := by
  intro msgs
  induction msgs with
  | nil =>
      intro acc h
      simp
  | cons m rest ih =>
      intro acc h
      have hm := h m (List.mem_cons_self m rest)
      rw [List.foldl_cons, List.map_cons]
      rw [show (if embedOk m = true then
          ((acc, false).1 ++ [messageToDocument m], (acc, false).2)
        else ((acc, false).1, true)) =
          ((acc ++ [messageToDocument m], false) : List Document × Bool) from
        by rw [hm]; exact if_pos rfl]
      rw [ih (acc ++ [messageToDocument m])
        (fun x hx => h x (List.mem_cons_of_mem m hx))]
      simp

theorem drainFold_all_ok (embedOk : ChatMessage → Bool)
    (msgs : List ChatMessage) (hall : ∀ m ∈ msgs, embedOk m = true) :
    drainFold embedOk msgs = (initDoc :: msgs.map messageToDocument, false) := by
  unfold drainFold
  rw [drainFoldAux_all_ok embedOk msgs [initDoc] hall]
  simp

/-- Claim C6 (amended): when the index build succeeds, the pending queue is
drained exactly once and is empty afterwards whether or not the drain
succeeded; if every queued message embeds successfully, the call resolves and
the store holds the sentinel followed by the queued messages (never
re-queued); and once a store exists, a credentialed `_addMessageToStore`
leaves the queue untouched.  The claim's assertion that messages failing
during the drain remain queued is false: they are dropped (see the
counterexample). -/
theorem drain_once_queue_cleared (embedOk : ChatMessage → Bool)
    (st : StoreState) :
    (initVectorStoreWithKey true embedOk st).1.pendingMessages = [] ∧
    ((∀ m ∈ st.pendingMessages, embedOk m = true) →
      (initVectorStoreWithKey true embedOk st).2 = Except.ok () ∧
      (initVectorStoreWithKey true embedOk st).1.vectorStore =
        some ⟨initDoc :: st.pendingMessages.map messageToDocument⟩) ∧
    (∀ (initOk : Bool) (store : VectorStore) (m : ChatMessage),
      st.vectorStore = some store →
      (addMessageToStore initOk embedOk st m true).1.pendingMessages =
        st.pendingMessages) := by
  refine ⟨?_, ?_, ?_⟩
  · unfold initVectorStoreWithKey
    split
    · split
      · rfl
      · rename_i hpos
        exact List.length_eq_zero.mp (show st.pendingMessages.length = 0 by
          omega)
    · rename_i h
      exact absurd rfl h
  · intro hall
    unfold initVectorStoreWithKey
    split
    · split
      · rw [drainFold_all_ok embedOk st.pendingMessages hall]
        exact ⟨rfl, rfl⟩
      · rename_i hpos
        have hnil : st.pendingMessages = [] := List.length_eq_zero.mp (by omega)
        refine ⟨rfl, ?_⟩
        rw [hnil]
        simp
    · rename_i h
      exact absurd rfl h
  · intro initOk store m hstore
    unfold addMessageToStore
    rw [hstore]
    dsimp only
    split
    · split <;> rfl
    · rename_i h
      exact absurd rfl h

/-- Concrete instance of claim C6 (amended): draining a queue holding one
message with a working provider empties the queue, stores the message, and a
later credentialed add on an existing store leaves the queue untouched. -/
theorem drain_once_queue_cleared_witness :
    (initVectorStoreWithKey true (fun _ => true) stPending).1.pendingMessages
      = [] ∧
    (initVectorStoreWithKey true (fun _ => true) stPending).2 =
      Except.ok () ∧
    (initVectorStoreWithKey true (fun _ => true) stPending).1.vectorStore =
      some ⟨initDoc :: stPending.pendingMessages.map messageToDocument⟩ ∧
    (addMessageToStore false (fun _ => true)
        ⟨some ⟨[initDoc]⟩, [mA], [], [], 0⟩ mB true).1.pendingMessages =
      (⟨some ⟨[initDoc]⟩, [mA], [], [], 0⟩ : StoreState).pendingMessages :=
  ⟨(drain_once_queue_cleared (fun _ => true) stPending).1,
    ((drain_once_queue_cleared (fun _ => true) stPending).2.1 (by decide)).1,
    ((drain_once_queue_cleared (fun _ => true) stPending).2.1 (by decide)).2,
    (drain_once_queue_cleared (fun _ => true)
      ⟨some ⟨[initDoc]⟩, [mA], [], [], 0⟩).2.2 false ⟨[initDoc]⟩ mB rfl⟩

/-- Claim C6 counterexample: the queue holds one message, the store build
succeeds, but embedding the message fails during the drain; the call rejects
and the queue is empty afterwards - the failed message is not retained for a
future attempt, contradicting the claim. -/
theorem drain_failure_counterexample :
    (initVectorStoreWithKey true (fun _ => false) stPending).1.pendingMessages
      = [] ∧
    mA ∉ (initVectorStoreWithKey true (fun _ => false)
      stPending).1.pendingMessages ∧
    (initVectorStoreWithKey true (fun _ => false) stPending).2 =
      Except.error EmbedError.providerError ∧
    stPending.pendingMessages = [mA] := by
  decide

end EmailAssistant

namespace EmailAssistant

/-! ## Lookup lemmas for the session and pointer maps -/

theorem lookupPointer_cons (p : String × Nat) (rest : List (String × Nat))
    (u : String) :
    lookupPointer (p :: rest) u =
      if p.1 = u then some p.2 else lookupPointer rest u := by
  by_cases h : p.1 = u <;> simp_all [lookupPointer, List.find?_cons]

theorem lookupSession_cons (p : Nat × Session) (rest : List (Nat × Session))
    (k : Nat) :
    lookupSession (p :: rest) k =
      if p.1 = k then some p.2 else lookupSession rest k := by
  by_cases h : p.1 = k <;> simp_all [lookupSession, List.find?_cons]

theorem lookupPointer_erase_self (ps : List (String × Nat)) (u : String) :
    lookupPointer (erasePointer ps u) u = none := by
  induction ps with
  | nil => rfl
  | cons p rest ih =>
      by_cases h : p.1 = u <;>
        simp_all [erasePointer, List.filter_cons, lookupPointer_cons]

theorem lookupPointer_erase_ne (ps : List (String × Nat)) (w u : String)
    (hne : u ≠ w) :
    lookupPointer (erasePointer ps w) u = lookupPointer ps u := by
  induction ps with
  | nil => rfl
  | cons p rest ih =>
      by_cases h : p.1 = w
      · have h2 : p.1 ≠ u := by
          rw [h]
          exact fun hc => hne hc.symm
        simp_all [erasePointer, List.filter_cons, lookupPointer_cons]
      · simp_all [erasePointer, List.filter_cons, lookupPointer_cons]

theorem lookupPointer_mem (ps : List (String × Nat)) (u : String) (v : Nat)
    (h : lookupPointer ps u = some v) : (u, v) ∈ ps := by
  induction ps with
  | nil => cases h
  | cons p rest ih =>
      obtain ⟨a, b⟩ := p
      rw [lookupPointer_cons] at h
      by_cases hp : a = u
      · rw [if_pos hp] at h
        cases h
        subst hp
        exact List.mem_cons_self _ _
      · rw [if_neg hp] at h
        exact List.mem_cons_of_mem _ (ih h)

/-! ## Claim C7: startNewConversation -/

/-- Claim C7: `startNewConversation` returns a session id different from the
user's previous session id (session ids are drawn from the strictly
increasing `nextId` supply, so the invariant `hwf` holds for every reachable
state), and immediately afterwards the user's current session is the freshly
created one: empty message list and exactly the returned id. -/
theorem startNewConversation_fresh (st : StoreState) (u : String) (now : Nat)
    (oldSid : Nat) (hwf : ∀ p ∈ st.pointers, p.2 < st.nextId)
    (hold : lookupPointer st.pointers u = some oldSid) :
    (startNewConversation st u now).1 ≠ oldSid ∧
    ∃ s, currentSessionOf (startNewConversation st u now).2 u = some s ∧
      s.messages = [] ∧ (startNewConversation st u now).1 = s.sessionId := by
  have hlt : oldSid < st.nextId :=
    hwf (u, oldSid) (lookupPointer_mem st.pointers u oldSid hold)
  unfold startNewConversation getCurrentSession createSession
  dsimp only
  rw [lookupPointer_erase_self]
  refine ⟨by dsimp only; omega, ⟨st.nextId, u, [], now, now⟩, ?_, rfl, rfl⟩
  simp [currentSessionOf, lookupPointer_setPointer_self,
    lookupSession_setSession_self]

/-- Concrete instance of claim C7: alice's current session has id 0; starting
a new conversation returns a different id and an empty current session. -/
theorem startNewConversation_fresh_witness :
    (startNewConversation stAlice "alice" 10).1 ≠ 0 ∧
    ∃ s, currentSessionOf (startNewConversation stAlice "alice" 10).2 "alice"
        = some s ∧ s.messages = [] ∧
      (startNewConversation stAlice "alice" 10).1 = s.sessionId :=
  startNewConversation_fresh stAlice "alice" 10 0 (by decide) (by decide)

end EmailAssistant

namespace EmailAssistant

/-! ## Sweep lemmas -/

theorem lookupSession_nodup_mem (ss : List (Nat × Session)) (k : Nat)
    (s : Session) (hnd : (ss.map (fun p => p.1)).Nodup) (hm : (k, s) ∈ ss) :
    lookupSession ss k = some s := by
  induction ss with
  | nil => cases hm
  | cons p rest ih =>
      rw [List.map_cons, List.nodup_cons] at hnd
      rw [lookupSession_cons]
      rcases List.mem_cons.mp hm with rfl | hmem
      · rw [if_pos rfl]
      · by_cases hp : p.1 = k
        · exfalso
          apply hnd.1
          rw [hp]
          exact List.mem_map.mpr ⟨(k, s), hmem, rfl⟩
        · rw [if_neg hp]
          exact ih hnd.2 hmem

theorem cleanupStep_sessions (acc : StoreState) (sid : Nat) :
    (cleanupStep acc sid).sessions = eraseSession acc.sessions sid := by
  unfold cleanupStep
  cases hf : lookupSession acc.sessions sid with
  | none =>
      dsimp only
      symm
      unfold eraseSession
      rw [List.filter_eq_self]
      intro p hp
      unfold lookupSession at hf
      rw [Option.map_eq_none'] at hf
      have := List.find?_eq_none.mp hf p hp
      simpa using this
  | some sess =>
      dsimp only
      split <;> rfl

theorem mem_eraseSession (ss : List (Nat × Session)) (k : Nat)
    (p : Nat × Session) :
    p ∈ eraseSession ss k ↔ p ∈ ss ∧ p.1 ≠ k := by
  unfold eraseSession
  rw [List.mem_filter]
  simp

theorem mem_foldl_cleanupStep :
    ∀ (es : List Nat) (acc : StoreState) (p : Nat × Session),
      p ∈ (es.foldl cleanupStep acc).sessions ↔
        p ∈ acc.sessions ∧ p.1 ∉ es := by
  intro es
  induction es with
  | nil =>
      intro acc p
      simp
  | cons e rest ih =>
      intro acc p
      rw [List.foldl_cons, ih, cleanupStep_sessions, mem_eraseSession]
      simp only [List.mem_cons]
      constructor
      · rintro ⟨⟨hmem, hne⟩, hnin⟩
        exact ⟨hmem, by simp [hne, hnin]⟩
      · rintro ⟨hmem, hnin⟩
        simp only [not_or] at hnin
        exact ⟨⟨hmem, hnin.1⟩, hnin.2⟩

theorem cleanupStep_keys_nodup (acc : StoreState) (sid : Nat)
    (hnd : (acc.sessions.map (fun p => p.1)).Nodup) :
    ((cleanupStep acc sid).sessions.map (fun p => p.1)).Nodup := by
  rw [cleanupStep_sessions]
  exact hnd.sublist (List.Sublist.map _ (List.filter_sublist _))

theorem cleanupStep_pointer_none (acc : StoreState) (sid : Nat) (u : String)
    (h : lookupPointer acc.pointers u = none) :
    lookupPointer (cleanupStep acc sid).pointers u = none := by
  unfold cleanupStep
  cases hf : lookupSession acc.sessions sid with
  | none => exact h
  | some sess =>
      dsimp only
      split
      · by_cases hu : u = sess.userId
        · subst hu
          exact lookupPointer_erase_self _ _
        · rw [lookupPointer_erase_ne _ _ _ hu]
          exact h
      · exact h

theorem foldl_cleanupStep_pointer_none :
    ∀ (es : List Nat) (acc : StoreState) (u : String),
      lookupPointer acc.pointers u = none →
      lookupPointer (es.foldl cleanupStep acc).pointers u = none := by
  intro es
  induction es with
  | nil => exact fun acc u h => h
  | cons e rest ih =>
      intro acc u h
      exact ih (cleanupStep acc e) u (cleanupStep_pointer_none acc e u h)

theorem foldl_cleanupStep_pointer_cleared :
    ∀ (es : List Nat) (acc : StoreState) (sid : Nat) (sess : Session),
      (acc.sessions.map (fun p => p.1)).Nodup →
      sid ∈ es → (sid, sess) ∈ acc.sessions →
      lookupPointer acc.pointers sess.userId = some sid →
      lookupPointer (es.foldl cleanupStep acc).pointers sess.userId =
        none := by
  intro es
  induction es with
  | nil =>
      intro acc sid sess hnd hin hmem hptr
      cases hin
  | cons e rest ih =>
      intro acc sid sess hnd hin hmem hptr
      rw [List.foldl_cons]
      by_cases he : e = sid
      · subst he
        apply foldl_cleanupStep_pointer_none
        unfold cleanupStep
        rw [lookupSession_nodup_mem acc.sessions e sess hnd hmem]
        dsimp only
        rw [if_pos hptr]
        exact lookupPointer_erase_self _ _
      · have hin' : sid ∈ rest := by
          rcases List.mem_cons.mp hin with h1 | h1
          · exact absurd h1.symm he
          · exact h1
        refine ih (cleanupStep acc e) sid sess
          (cleanupStep_keys_nodup acc e hnd) hin' ?_ ?_
        · rw [cleanupStep_sessions, mem_eraseSession]
          exact ⟨hmem, fun hc => he hc.symm⟩
        · unfold cleanupStep
          cases hf : lookupSession acc.sessions e with
          | none => exact hptr
          | some sess2 =>
              dsimp only
              split
              · rename_i hcond
                by_cases hu : sess.userId = sess2.userId
                · exfalso
                  rw [← hu] at hcond
                  rw [hptr] at hcond
                  cases hcond
                  exact he rfl
                · rw [lookupPointer_erase_ne _ _ _ hu]
                  exact hptr
              · exact hptr

end EmailAssistant

namespace EmailAssistant

/-! ## Claim C8: the TTL sweep -/

/-- Claim C8: after `cleanupExpiredSessions` runs at time `now` with the
48-hour TTL, every session strictly more than 48 hours idle is absent (no
session is stored under its id) and the owning user's current-session pointer
to it is cleared, while every session at most 48 hours idle remains.  The
`hnd` hypothesis states that each session id keys at most one map entry,
which holds for every JS `Map`. -/
theorem sweep_ttl (now : Nat) (st : StoreState)
    (hnd : (st.sessions.map (fun p => p.1)).Nodup) :
    (∀ sid sess, (sid, sess) ∈ st.sessions →
      isExpired now sess.lastActivity = true →
      (∀ sess', (sid, sess') ∉ (cleanupExpiredSessions now st).sessions) ∧
      (lookupPointer st.pointers sess.userId = some sid →
        lookupPointer (cleanupExpiredSessions now st).pointers sess.userId =
          none)) ∧
    (∀ p ∈ st.sessions, isExpired now p.2.lastActivity = false →
      p ∈ (cleanupExpiredSessions now st).sessions) := by
  constructor
  · intro sid sess hmem hexp
    have hinexp : sid ∈ (st.sessions.filter
        (fun p => isExpired now p.2.lastActivity)).map (fun p => p.1) :=
      List.mem_map.mpr ⟨(sid, sess),
        List.mem_filter.mpr ⟨hmem, by simpa using hexp⟩, rfl⟩
    constructor
    · intro sess' hc
      unfold cleanupExpiredSessions at hc
      rw [mem_foldl_cleanupStep] at hc
      exact hc.2 hinexp
    · intro hptr
      unfold cleanupExpiredSessions
      exact foldl_cleanupStep_pointer_cleared _ st sid sess hnd hinexp hmem
        hptr
  · intro p hmem hexp
    unfold cleanupExpiredSessions
    rw [mem_foldl_cleanupStep]
    refine ⟨hmem, ?_⟩
    intro hc
    rcases List.mem_map.mp hc with ⟨q, hq, hq1⟩
    have hqmem := (List.mem_filter.mp hq).1
    have hqexp := (List.mem_filter.mp hq).2
    have : q = p := List.inj_on_of_nodup_map hnd hqmem hmem hq1
    rw [this] at hqexp
    rw [hexp] at hqexp
    cases hqexp

/-- Concrete instance of claim C8: at a sweep 49 hours after alice's last
activity and 47 hours after bob's, alice's session (id 0) is removed and her
pointer cleared, while bob's session (id 1) remains. -/
theorem sweep_ttl_witness :
    (∀ sess', (0, sess') ∉ (cleanupExpiredSessions nowSweep stSweep).sessions)
      ∧
    lookupPointer (cleanupExpiredSessions nowSweep stSweep).pointers "alice" =
      none ∧
    (1, ⟨1, "bob", [], 2 * 3600000, 0⟩) ∈
      (cleanupExpiredSessions nowSweep stSweep).sessions :=
  ⟨((sweep_ttl nowSweep stSweep (by decide)).1 0 ⟨0, "alice", [], 0, 0⟩
      (by decide) (by decide)).1,
    ((sweep_ttl nowSweep stSweep (by decide)).1 0 ⟨0, "alice", [], 0, 0⟩
      (by decide) (by decide)).2 (by decide),
    (sweep_ttl nowSweep stSweep (by decide)).2
      (1, ⟨1, "bob", [], 2 * 3600000, 0⟩) (by decide) (by decide)⟩

end EmailAssistant

namespace EmailAssistant

/-! ## Chunking lemmas -/

theorem numChunks_gt :
    ∀ (L i : Nat), i + 1 < numChunks L → 800 * i + 1000 < L := by
  intro L
  induction L using Nat.strong_induction_on with
  | _ L ih =>
      intro i h
      unfold numChunks at h
      split at h
      · omega
      · split at h
        · omega
        · cases i with
          | zero => omega
          | succ j =>
              have hj : j + 1 < numChunks (L - 800) := by omega
              have := ih (L - 800) (by omega) j hj
              omega

theorem numChunks_eq :
    ∀ L : Nat, 201 ≤ L → numChunks L = (L + 599) / 800 := by
  intro L
  induction L using Nat.strong_induction_on with
  | _ L ih =>
      intro h
      unfold numChunks
      split
      · omega
      · split
        · rename_i h0 h1
          omega
        · rename_i h0 h1
          have := ih (L - 800) (by omega) (by omega)
          rw [this]
          omega

theorem splitText_length {α : Type} (xs : List α) :
    (splitText xs).length = numChunks xs.length := by
  unfold splitText chunkStarts
  rw [List.length_map, List.length_map, List.length_range]

theorem splitText_getElem {α : Type} (xs : List α) (i : Nat)
    (h : i < (splitText xs).length) :
    (splitText xs)[i] = (xs.drop (i * 800)).take 1000 := by
  unfold splitText chunkStarts
  simp [List.getElem_map, List.getElem_range]

theorem chunk_overlap_atoms {α : Type} (xs : List α) (i : Nat) :
    ((xs.drop (i * 800)).take 1000).drop 800 =
      (xs.drop ((i + 1) * 800)).take 200 := by
  rw [List.drop_take, List.drop_drop]
  have h1 : i * 800 + 800 = (i + 1) * 800 := by ring
  rw [h1]

end EmailAssistant

namespace EmailAssistant

/-! ## Claim C5: document chunking -/

/-- Claim C5 (amended): for a uniform text longer than 200 units, the
character-level splitter with chunkSize 1000 and overlap 200 produces exactly
`ceil((L - 200) / 800)` chunks (written with natural-number ceiling division
as `(L + 599) / 800`, equal to `ceil((L - 200) / 800)` for `L > 200`);
`processDocument` tags the chunks with indices `0 .. totalChunks - 1` in
order and `totalChunks` equal to the number of chunks; and each pair of
adjacent chunks overlaps in exactly 200 units: the last 200 units of a chunk
are the first 200 units of the next (which is always longer than 200 units).
For `L ≤ 200` the claimed formula fails - the splitter still produces one
chunk - so the claim is amended to `L > 200` (see the counterexample). -/
theorem chunking_properties {α : Type} (xs : List α) (h : 200 < xs.length) :
    (splitText xs).length = (xs.length + 599) / 800 ∧
    (processDocumentChunks xs).length = (splitText xs).length ∧
    (∀ i, ∀ h2 : i < (processDocumentChunks xs).length,
      (processDocumentChunks xs)[i].chunkIndex = i ∧
      (processDocumentChunks xs)[i].totalChunks = (splitText xs).length) ∧
    (∀ i, ∀ h3 : i + 1 < (splitText xs).length,
      ((splitText xs)[i]).drop 800 = ((splitText xs)[i + 1]).take 200 ∧
      200 < ((splitText xs)[i + 1]).length) := by
  refine ⟨?_, ?_, ?_, ?_⟩
  · rw [splitText_length]
    exact numChunks_eq xs.length (by omega)
  · simp [processDocumentChunks]
  · intro i h2
    constructor
    · simp [processDocumentChunks, List.getElem_mapIdx]
    · simp [processDocumentChunks, List.getElem_mapIdx]
  · intro i h3
    have hb1 : i < (splitText xs).length := by omega
    have hgt : 800 * i + 1000 < xs.length := by
      apply numChunks_gt xs.length i
      rw [← splitText_length]
      exact h3
    constructor
    · rw [splitText_getElem xs i hb1, splitText_getElem xs (i + 1) h3]
      rw [chunk_overlap_atoms]
      rw [List.take_take]
      norm_num
    · rw [splitText_getElem xs (i + 1) h3]
      rw [List.length_take, List.length_drop]
      omega

/-- Concrete instance of claim C5: a text of length 2500 yields
`(2500 + 599) / 800 = 3` chunks. -/
theorem chunking_properties_witness :
    (splitText (List.replicate 2500 (0 : Nat))).length = (2500 + 599) / 800 ∧
    (2500 + 599) / 800 = 3 :=
  ⟨by
    have := (chunking_properties (List.replicate 2500 (0 : Nat))
      (by rw [List.length_replicate]; omega)).1
    rw [List.length_replicate] at this
    exact this,
    by norm_num⟩

/-- Claim C5 counterexample: for a text of length exactly 200 the splitter
produces one chunk, while the claimed formula `ceil((L - 200) / 800)` gives
zero chunks. -/
theorem chunking_count_counterexample :
    (splitText (List.replicate 200 (0 : Nat))).length = 1 ∧
    (200 - 200 + 799) / 800 = 0 := by
  constructor
  · rw [splitText_length, List.length_replicate]
    unfold numChunks
    norm_num
  · norm_num

end EmailAssistant
